import Mathlib

/-!
Verification of the conversation-aware batch execution engine of
`dify_chatflow_batch` against its natural-language specification.

The Python sources are shallowly embedded:
* `src/src/conversation_manager.py` → `ConversationManager` and its operations;
  Python dicts become insertion-ordered association lists (`lookupKey`/`setKey`).
* `src/src/dify_client.py` → the streaming line loop (`processStream`) and the
  `extract_answer` / `extract_conversation_id` helpers; a parsed SSE line is an
  `EventData` record holding exactly the JSON keys the code reads.
* `src/src/main.py` → the per-case retry loop (`retryGo`/`retryCall`),
  `process_test_case`, and the sequential run loop (`runGo`).
* `src/web/backend/routes/execution.py` → the run-state routes
  (`start_test`/`pause_test`/`resume_test`/`stop_test`) and an atomic-step
  model (`ObsStep`) of the asyncio interleaving of the background task with
  the status routes.

Machine `float` time values are modelled as `ℚ`; Python's `round(x, n)`
(round-half-to-even) is modelled exactly on rationals by `roundHalfEven`.
-/

namespace DifyBatch

/-- Python truthiness of an optional string: `None` and `""` are falsy. -/
def truthy : Option String → Bool
  | none => false
  | some s => !(s == "")

/-- Dict lookup on an insertion-ordered association list (`d.get(k)`). -/
def lookupKey {β : Type} : List (String × β) → String → Option β
  | [], _ => none
  | (k', v) :: rest, k => if k' = k then some v else lookupKey rest k

/-- Dict assignment on an insertion-ordered association list (`d[k] = v`):
replaces the value in place if the key exists, otherwise appends at the end,
matching Python dict insertion-order semantics. -/
def setKey {β : Type} : List (String × β) → String → β → List (String × β)
  | [], k, v => [(k, v)]
  | (k', v') :: rest, k, v =>
    if k' = k then (k, v) :: rest else (k', v') :: setKey rest k v

/-- One turn record as appended by `ConversationManager.add_turn`
(src/src/conversation_manager.py, lines 90-98). -/
structure TurnRecord where
  turn_number : Nat
  user_question : String
  chatflow_reply : String
  api_status : String
  error_details : String
  response_time : ℚ
  timestamp : String
deriving DecidableEq

/-- State of `ConversationManager` (src/src/conversation_manager.py, `__init__`):
the three dicts `_conversation_mapping`, `_conversation_turns`,
`_conversation_created_time`. -/
structure ConversationManager where
  conversation_mapping : List (String × String)
  conversation_turns : List (String × List TurnRecord)
  conversation_created_time : List (String × String)
deriving DecidableEq

/-- `ConversationManager.__init__`: all three dicts empty. -/
def newManager : ConversationManager := ⟨[], [], []⟩

/-- `ConversationManager.get_conversation_id` (lines 31-41). -/
def get_conversation_id (m : ConversationManager) (gid : String) : Option String :=
  lookupKey m.conversation_mapping gid

/-- `ConversationManager.set_conversation_id` (lines 43-57): records the
creation time on first sight of the group key, then unconditionally updates
the mapping.  `now` stands for `datetime.now().strftime(...)`. -/
def set_conversation_id (m : ConversationManager) (gid cid now : String) :
    ConversationManager :=
  let m' :=
    if (lookupKey m.conversation_mapping gid).isNone then
      { m with conversation_created_time := setKey m.conversation_created_time gid now }
    else m
  { m' with conversation_mapping := setKey m'.conversation_mapping gid cid }

/-- `ConversationManager.is_new_conversation` (lines 59-69). -/
def is_new_conversation (m : ConversationManager) (gid : String) : Bool :=
  (lookupKey m.conversation_mapping gid).isNone

/-- `ConversationManager.add_turn` (lines 71-102): creates the group's list if
absent and appends the new record; there is no validation of `turn_number`. -/
def add_turn (m : ConversationManager) (gid : String) (turn_number : Nat)
    (user_question chatflow_reply api_status error_details : String)
    (response_time : ℚ) (now : String) : ConversationManager :=
  let turns := (lookupKey m.conversation_turns gid).getD []
  let turns' := turns ++ [⟨turn_number, user_question, chatflow_reply, api_status,
                           error_details, response_time, now⟩]
  { m with conversation_turns := setKey m.conversation_turns gid turns' }

/-- `ConversationManager.get_conversation_turns` (lines 104-114). -/
def get_conversation_turns (m : ConversationManager) (gid : String) : List TurnRecord :=
  (lookupKey m.conversation_turns gid).getD []

/-- `ConversationManager.get_last_turn` (lines 116-127). -/
def get_last_turn (m : ConversationManager) (gid : String) : Option TurnRecord :=
  (get_conversation_turns m gid).getLast?

/-- `ConversationManager.get_turn_count` (lines 129-139). -/
def get_turn_count (m : ConversationManager) (gid : String) : Nat :=
  (get_conversation_turns m gid).length

/-- `ConversationManager.validate_turn_sequence` (lines 141-158): the first
turn must be `1`, later turns must be `current_turn_count + 1`. -/
def validate_turn_sequence (m : ConversationManager) (gid : String)
    (expected_turn : Nat) : Bool :=
  let current_turn_count := get_turn_count m gid
  if current_turn_count = 0 then expected_turn == 1
  else expected_turn == current_turn_count + 1

/-- Round-half-to-even on rationals, the tie rule of Python's builtin
`round`. -/
def roundHalfEven (q : ℚ) : ℤ :=
  let f := q.floor
  let r := q - f
  if r < 1 / 2 then f
  else if 1 / 2 < r then f + 1
  else if f % 2 = 0 then f else f + 1

/-- Python `round(x, 2)` on rationals. -/
def pyRound2 (q : ℚ) : ℚ := (roundHalfEven (q * 100) : ℚ) / 100

/-- Python `round(x, 3)` on rationals. -/
def pyRound3 (q : ℚ) : ℚ := (roundHalfEven (q * 1000) : ℚ) / 1000

/-- The dict returned by `ConversationManager.get_statistics`
(lines 238-245). -/
structure StatsReport where
  total_conversations : Nat
  total_turns : Nat
  average_turns_per_conversation : ℚ
  successful_turns : Nat
  failed_turns : Nat
  success_rate : ℚ
deriving DecidableEq

/-- All turn records of all groups, in dict iteration (= insertion) order;
the nested loop of `get_statistics` (lines 228-233) walks exactly this
list. -/
def joinedTurns (m : ConversationManager) : List TurnRecord :=
  (m.conversation_turns.map Prod.snd).flatten

/-- `ConversationManager.get_statistics` (lines 211-245): `total_turns` is
`sum(len(turns) ...)`, a turn is successful iff its `api_status` equals the
exact string `"成功"`, every other turn counts as failed, and the two rates
are computed with guarded division and `round(_, 2)`. -/
def get_statistics (m : ConversationManager) : StatsReport :=
  let total_conversations := m.conversation_mapping.length
  let total_turns := ((m.conversation_turns.map Prod.snd).map List.length).sum
  let avg_turns : ℚ :=
    if 0 < total_conversations then (total_turns : ℚ) / total_conversations else 0
  let successful_turns := (joinedTurns m).countP (fun t => t.api_status == "成功")
  let failed_turns := (joinedTurns m).countP (fun t => !(t.api_status == "成功"))
  let success_rate : ℚ :=
    if 0 < total_turns then (successful_turns : ℚ) / total_turns * 100 else 0
  { total_conversations := total_conversations
    total_turns := total_turns
    average_turns_per_conversation := pyRound2 avg_turns
    successful_turns := successful_turns
    failed_turns := failed_turns
    success_rate := pyRound2 success_rate }

/-! ### Streaming client (`src/src/dify_client.py`) -/

/-- One parsed `data: {json}` object of the SSE stream, restricted to the keys
`_handle_streaming_response` actually reads via `event_data.get(...)`
(lines 188-210): `event`, `answer`, `conversation_id`, `message_id`, `id`
(read on `message_end`), `message` (read on `error`).  A missing key is
`none`. -/
structure EventData where
  event : Option String
  answer : Option String
  conversation_id : Option String
  message_id : Option String
  id : Option String
  message : Option String
deriving DecidableEq

/-- One line of the streamed response body as the loop at lines 179-215 sees
it: `skipped` covers blank lines, lines without the `data: ` marker, empty
payloads, and payloads that fail to parse as JSON (all of which the loop
passes over), `parsed ev` a successfully decoded JSON object. -/
inductive StreamLine
  | skipped
  | parsed (ev : EventData)
deriving DecidableEq

/-- The normalized result dict built at lines 224-228. -/
structure StreamResult where
  answer : String
  conversation_id : Option String
  message_id : Option String
deriving DecidableEq

/-- The line loop of `DifyClient._handle_streaming_response` (lines 174-215),
carrying the accumulators `full_answer`, `conversation_id`, `message_id`:
`message` events append `event_data.get('answer','')` and capture each id the
first time a Python-truthy value is seen; `message_end` fills still-falsy ids
(the message id from the `id` key) and stops reading; `error` raises with the
server message; anything else — including unparsable lines — is skipped.
A stream exhausted without `message_end` returns the accumulated state. -/
def processStream : List StreamLine → String → Option String → Option String →
    Except String (String × Option String × Option String)
  | [], acc, cid, mid => Except.ok (acc, cid, mid)
  | StreamLine.skipped :: rest, acc, cid, mid => processStream rest acc cid mid
  | StreamLine.parsed ev :: rest, acc, cid, mid =>
    let etype := ev.event.getD ""
    if etype = "message" then
      processStream rest (acc ++ ev.answer.getD "")
        (if truthy cid then cid else ev.conversation_id)
        (if truthy mid then mid else ev.message_id)
    else if etype = "message_end" then
      Except.ok (acc, (if truthy cid then cid else ev.conversation_id),
        (if truthy mid then mid else ev.id))
    else if etype = "error" then
      Except.error ("流式响应错误: " ++ ev.message.getD "未知错误")
    else
      processStream rest acc cid mid

/-- `DifyClient._handle_streaming_response` after a 200 status: run the line
loop from empty accumulators and package the result dict (lines 224-232). -/
def handle_streaming_response (lines : List StreamLine) : Except String StreamResult :=
  (processStream lines "" none none).map fun p =>
    { answer := p.1, conversation_id := p.2.1, message_id := p.2.2 }

/-- A blocking-mode response dict, restricted to the keys that
`extract_answer` / `extract_conversation_id` read. -/
structure ResponseData where
  answer : Option String
  message : Option String
  content : Option String
  text : Option String
  response : Option String
  conversation_id : Option String
deriving DecidableEq

/-- `DifyClient.extract_answer` (lines 261-284): prefer the `answer` key when
present (even empty), else the first Python-truthy fallback among `message`,
`content`, `text`, `response`, else `""`; the returned text is `.strip()`ed. -/
def extract_answer (r : ResponseData) : String :=
  match r.answer with
  | some a => a.trim
  | none =>
    if truthy r.message then (r.message.getD "").trim
    else if truthy r.content then (r.content.getD "").trim
    else if truthy r.text then (r.text.getD "").trim
    else if truthy r.response then (r.response.getD "").trim
    else ""

/-- `DifyClient.extract_conversation_id` (lines 286-299): `None` unless the
raw value is Python-truthy, in which case the `.strip()`ed string. -/
def extract_conversation_id (r : ResponseData) : Option String :=
  if truthy r.conversation_id then some ((r.conversation_id.getD "").trim) else none

/-! ### Per-case retry loop and sequential run loop (`src/src/main.py`) -/

/-- Outcome of one run of the retry loop: the final result, the number of
calls that were made, and the sleeps taken between attempts. -/
structure RetryTrace (α : Type) where
  result : Except String α
  attemptsMade : Nat
  sleeps : List Nat
deriving Repr

/-- The retry loop of `ChatflowTestTool.process_test_case` (main.py,
lines 189-206): `for attempt in range(max_retries)`, any exception is caught,
a fixed `retry_delay` sleep precedes each re-attempt, and when
`attempt == max_retries - 1` the last error is re-raised as caught.  The
external API call is abstracted as `client : Nat → Except String α`, giving
the outcome of the attempt with that 0-based index.  `remaining` is the fuel
`maxRetries - attempt`; the fuel-0 base case is unreachable for a positive
`maxRetries`. -/
def retryGo {α : Type} (client : Nat → Except String α) (delay maxRetries : Nat) :
    Nat → Nat → RetryTrace α
  | _, 0 => { result := Except.error "", attemptsMade := 0, sleeps := [] }
  | attempt, remaining + 1 =>
    match client attempt with
    | Except.ok v => { result := Except.ok v, attemptsMade := 1, sleeps := [] }
    | Except.error e =>
      if attempt < maxRetries - 1 then
        let t := retryGo client delay maxRetries (attempt + 1) remaining
        { result := t.result, attemptsMade := t.attemptsMade + 1, sleeps := delay :: t.sleeps }
      else
        { result := Except.error e, attemptsMade := 1, sleeps := [] }

/-- The whole retry loop started at attempt 0. -/
def retryCall {α : Type} (client : Nat → Except String α) (delay maxRetries : Nat) :
    RetryTrace α :=
  retryGo client delay maxRetries 0 maxRetries

/-- `ChatflowTestTool.self.stats` (main.py, lines 59-66), the counter part. -/
structure ToolStats where
  total_cases : Nat
  processed_cases : Nat
  successful_cases : Nat
  failed_cases : Nat
deriving DecidableEq

/-- One input test case (the keys `process_test_case` reads). -/
structure TestCase where
  conversation_group_id : String
  turn_number : Nat
  user_question : String
  expected_reply : String
deriving DecidableEq

/-- The per-case result dict of `process_test_case` (main.py, lines 158-168);
the `conversation_id` key holds the conversation group id. -/
structure CaseResult where
  conversation_id : String
  turn_number : Nat
  user_question : String
  expected_reply : String
  chatflow_reply : String
  response_time : ℚ
  api_status : String
  error_details : String
  call_time : String
deriving DecidableEq

/-- The oracle for one case's API attempts: attempt index ↦ exception message
or `(response_data, response_time)`. -/
def ApiOracle : Type := Nat → Except String (ResponseData × ℚ)

/-- Python truthiness of the response dict (`if api_response:`), restricted
to the modelled keys: the all-absent dict is falsy. -/
def respTruthy (r : ResponseData) : Bool :=
  !(r == ⟨none, none, none, none, none, none⟩)

/-- `ChatflowTestTool.process_test_case` (main.py, lines 148-237): run the
retry loop (`max_retries = 3`, `retry_delay = 5`); on failure of all attempts
the caught exception's message becomes `error_details`, `api_status` stays
`'failed'` and the failed counter ticks; on success the answer is extracted,
the conversation id is stored only when the extracted id is Python-truthy,
`api_status` becomes `'成功'` and the success counter ticks.  `now` stands
for the timestamps taken inside the function. -/
def process_test_case (cm : ConversationManager) (client : ApiOracle)
    (tc : TestCase) (st : ToolStats) (now : String) :
    CaseResult × ConversationManager × ToolStats :=
  let base : CaseResult :=
    { conversation_id := tc.conversation_group_id, turn_number := tc.turn_number,
      user_question := tc.user_question, expected_reply := tc.expected_reply,
      chatflow_reply := "", response_time := 0, api_status := "failed",
      error_details := "", call_time := now }
  match (retryCall client 5 3).result with
  | Except.error e =>
    ({ base with error_details := e }, cm,
     { st with failed_cases := st.failed_cases + 1,
               processed_cases := st.processed_cases + 1 })
  | Except.ok (resp, rt) =>
    let base := { base with response_time := pyRound3 rt }
    if respTruthy resp then
      let nid := extract_conversation_id resp
      let cm' := if truthy nid
                 then set_conversation_id cm tc.conversation_group_id (nid.getD "") now
                 else cm
      ({ base with chatflow_reply := extract_answer resp, api_status := "成功" }, cm',
       { st with successful_cases := st.successful_cases + 1,
                 processed_cases := st.processed_cases + 1 })
    else
      ({ base with error_details := "未收到有效的API响应" }, cm,
       { st with failed_cases := st.failed_cases + 1,
                 processed_cases := st.processed_cases + 1 })

/-- The sequential processing loop of `ChatflowTestTool.run` (main.py,
lines 353-366): process each case in order, threading the conversation
manager and the stats; `i` is the 1-based index of `enumerate(test_cases, 1)`
and `n` the total case count.  The fourth component records the inter-case
sleeps actually taken: `time.sleep(2)` exactly when `i < n - 1`. -/
def runGo : ConversationManager → ToolStats → List (TestCase × ApiOracle) →
    Nat → Nat → String →
    List CaseResult × ConversationManager × ToolStats × List Nat
  | cm, st, [], _, _, _ => ([], cm, st, [])
  | cm, st, (tc, client) :: rest, i, n, now =>
    let step := process_test_case cm client tc st now
    let tail := runGo step.2.1 step.2.2 rest (i + 1) n now
    (step.1 :: tail.1, tail.2.1, tail.2.2.1,
     (if i < n - 1 then [2] else []) ++ tail.2.2.2)

/-- The whole CLI loop over a case list. -/
def run_loop (cm : ConversationManager) (st : ToolStats)
    (items : List (TestCase × ApiOracle)) (now : String) :
    List CaseResult × ConversationManager × ToolStats × List Nat :=
  runGo cm st items 1 items.length now

/-- The inter-case sleep condition of `ChatflowTestTool.run` (main.py,
line 365): `if i < len(test_cases) - 1` where `i` is 1-based. -/
def cliSleepAfterCase (i n : Nat) : Bool := decide (i < n - 1)

/-- The inter-case sleep condition of `execute_test_cases`
(src/web/backend/routes/execution.py, line 362):
`if i < len(test_cases) - 1 and status != "stopped"` where `i` is 0-based. -/
def webSleepAfterCase (i n : Nat) (stopped : Bool) : Bool :=
  decide (i < n - 1) && !stopped

/-! ### Run-state routes (`src/web/backend/routes/execution.py`) -/

/-- The `execution_state["status"]` strings. -/
inductive RunStatus
  | idle
  | running
  | paused
  | stopped
  | completed
  | error
deriving DecidableEq

/-- One entry of `execution_state["logs"]` (`add_log`, lines 53-64);
the uuid and wall-clock timestamp are omitted. -/
structure LogEntry where
  level : String
  message : String
deriving DecidableEq

/-- The global `execution_state` dict (lines 30-51), restricted to the fields
the modelled routes touch; the `progress` sub-dict is inlined and the derived
`statistics` sub-dict is omitted. -/
structure ExecutionState where
  status : RunStatus
  total : Nat
  completed : Nat
  success : Nat
  failed : Nat
  current : Option String
  start_time : Option String
  end_time : Option String
  logs : List LogEntry
  current_response : String
  task_id : Option String
deriving DecidableEq

/-- The module-initialisation value of `execution_state`. -/
def initialExecutionState : ExecutionState :=
  { status := RunStatus.idle, total := 0, completed := 0, success := 0,
    failed := 0, current := none, start_time := none, end_time := none,
    logs := [], current_response := "", task_id := none }

/-- `add_log` (lines 53-64): append and keep only the newest 100 entries. -/
def add_log (s : ExecutionState) (level message : String) : ExecutionState :=
  let l := s.logs ++ [⟨level, message⟩]
  { s with logs := if 100 < l.length then l.drop (l.length - 100) else l }

/-- A stored configuration as `start_test` sees it (`storage.list_configs`). -/
structure ConfigRecord where
  name : String
  is_active : Bool
deriving DecidableEq

/-- `start_test` (lines 66-114): reject with the conflict message iff the
status is exactly `running`; then reject when no test cases or no active
configuration exist; otherwise replace the whole execution state — counters
zeroed, `total` set, logs cleared, fresh task id, status `running` — and add
the two startup log lines.  `new_task_id` and `now` stand for
`uuid.uuid4()` and `datetime.now()`. -/
def start_test (s : ExecutionState) (test_cases : List TestCase)
    (configs : List ConfigRecord) (new_task_id now : String) :
    Except String ExecutionState :=
  if s.status = RunStatus.running then Except.error "测试已在运行中"
  else if test_cases.isEmpty then Except.error "没有可用的测试用例"
  else
    match configs.find? (fun c => c.is_active) with
    | none => Except.error "没有活跃的配置"
    | some cfg =>
      let s1 : ExecutionState :=
        { status := RunStatus.running, total := test_cases.length, completed := 0,
          success := 0, failed := 0, current := none, start_time := some now,
          end_time := none, logs := [], current_response := "",
          task_id := some new_task_id }
      let msg1 := "开始执行批量测试，共 " ++ toString test_cases.length ++ " 条用例"
      Except.ok (add_log (add_log s1 "info" msg1) "info" ("使用配置: " ++ cfg.name))

/-- `pause_test` (lines 116-125): only valid from `running`. -/
def pause_test (s : ExecutionState) : Except String ExecutionState :=
  if s.status ≠ RunStatus.running then Except.error "测试未在运行中"
  else Except.ok (add_log { s with status := RunStatus.paused } "warning" "测试已暂停")

/-- `resume_test` (lines 127-136): only valid from `paused`. -/
def resume_test (s : ExecutionState) : Except String ExecutionState :=
  if s.status ≠ RunStatus.paused then Except.error "测试未处于暂停状态"
  else Except.ok (add_log { s with status := RunStatus.running } "info" "测试已恢复")

/-- `stop_test` (lines 138-148): valid from `running` or `paused`; sets the
end time. -/
def stop_test (s : ExecutionState) (now : String) : Except String ExecutionState :=
  if s.status = RunStatus.running ∨ s.status = RunStatus.paused then
    Except.ok (add_log { s with status := RunStatus.stopped, end_time := some now }
      "error" "测试已停止")
  else Except.error "测试未在执行中"

/-! ### Observable interleavings of the background task and the routes

FastAPI serves the routes and runs `execute_test_cases` background tasks on
one asyncio event loop, so control can only change hands at `await` points.
`RunSnap` is the part of `execution_state` a status reader can observe plus,
for each background task that has been spawned by `start_test`, the number of
its still-unprocessed cases.  `ObsStep` has one constructor per await-free
code segment that touches these fields:

* `start` — the `start_test` route body (lines 69-112): requires status ≠
  `running` and a non-empty case list, resets the counters and spawns a new
  task *without cancelling old ones*;
* `caseSuccess` / `caseFailed` — the per-case tail of `execute_test_cases`
  (lines 320-359): between the `success`/`failed` increment and the
  `completed` increment there is no `await`, so both land in one observable
  step; the success branch is guarded by `status != "stopped"` (line 320),
  the failure branch is not; either consumes one case of one live task;
* `pauseStep`/`resumeStep`/`stopStep` — the route bodies;
* `finishStep` — lines 379-381 (`status = "completed"` when still running);
* `errorStep` — the handler at lines 390-393.

The flag `safe` additionally requires `start` to find no live prior task
(every spawned task exhausted); `safe = false` is the code as written, where
`start_test` accepted from `paused` leaves the old task alive. -/
structure RunSnap where
  status : RunStatus
  total : Nat
  completed : Nat
  success : Nat
  failed : Nat
  tasks : List Nat
deriving DecidableEq

/-- The state before any request. -/
def initSnap : RunSnap :=
  { status := RunStatus.idle, total := 0, completed := 0, success := 0,
    failed := 0, tasks := [] }

/-- One await-free atomic segment of `execution.py`; see the section
comment. -/
inductive ObsStep : Bool → RunSnap → RunSnap → Prop
  | start {b : Bool} {s : RunSnap} (n : Nat) (hn : 0 < n)
      (h : s.status ≠ RunStatus.running)
      (hsafe : b = true → ∀ r ∈ s.tasks, r = 0) :
      ObsStep b s { status := RunStatus.running, total := n, completed := 0,
                    success := 0, failed := 0, tasks := n :: s.tasks }
  | caseSuccess {b : Bool} {s : RunSnap} (l₁ l₂ : List Nat) (r : Nat)
      (ht : s.tasks = l₁ ++ (r + 1) :: l₂) (hs : s.status ≠ RunStatus.stopped) :
      ObsStep b s { s with completed := s.completed + 1,
                           success := s.success + 1, tasks := l₁ ++ r :: l₂ }
  | caseFailed {b : Bool} {s : RunSnap} (l₁ l₂ : List Nat) (r : Nat)
      (ht : s.tasks = l₁ ++ (r + 1) :: l₂) :
      ObsStep b s { s with completed := s.completed + 1,
                           failed := s.failed + 1, tasks := l₁ ++ r :: l₂ }
  | pauseStep {b : Bool} {s : RunSnap} (h : s.status = RunStatus.running) :
      ObsStep b s { s with status := RunStatus.paused }
  | resumeStep {b : Bool} {s : RunSnap} (h : s.status = RunStatus.paused) :
      ObsStep b s { s with status := RunStatus.running }
  | stopStep {b : Bool} {s : RunSnap}
      (h : s.status = RunStatus.running ∨ s.status = RunStatus.paused) :
      ObsStep b s { s with status := RunStatus.stopped }
  | finishStep {b : Bool} {s : RunSnap} (h : s.status = RunStatus.running) :
      ObsStep b s { s with status := RunStatus.completed }
  | errorStep {b : Bool} {s : RunSnap} :
      ObsStep b s { s with status := RunStatus.error }

/-- States observable at some await boundary of some interleaving. -/
inductive ReachSnap : Bool → RunSnap → Prop
  | init (b : Bool) : ReachSnap b initSnap
  | step {b : Bool} {s s' : RunSnap} :
      ReachSnap b s → ObsStep b s s' → ReachSnap b s'

/-! ### Spec-side streaming vocabulary (for comparison with `processStream`) -/

/-- A line on which the reading loop halts: a parsed `message_end` or `error`
event. -/
def lineHalts : StreamLine → Bool
  | StreamLine.skipped => false
  | StreamLine.parsed ev =>
    (ev.event.getD "" == "message_end") || (ev.event.getD "" == "error")

/-- Spec wording: the concatenation, in stream order, of the `answer` fields
of the `event=message` lines of the list. -/
def msgConcat : List StreamLine → String
  | [] => ""
  | StreamLine.skipped :: rest => msgConcat rest
  | StreamLine.parsed ev :: rest =>
    (if ev.event.getD "" = "message" then ev.answer.getD "" else "") ++ msgConcat rest

/-- The raw id values offered by the `event=message` lines of the list, for a
given id field, in stream order. -/
def providedIds (f : EventData → Option String) : List StreamLine → List (Option String)
  | [] => []
  | StreamLine.skipped :: rest => providedIds f rest
  | StreamLine.parsed ev :: rest =>
    if ev.event.getD "" = "message" then f ev :: providedIds f rest
    else providedIds f rest

/-- Spec wording: the id captured from the first line that provides one
(a Python-truthy value); `none` when no line does. -/
def firstProvidedId : List (Option String) → Option String
  | [] => none
  | c :: rest => if truthy c then c else firstProvidedId rest

/-- Keep `x` when it is Python-truthy, otherwise fall back to `y` (the
"fill any still-missing id" rule of `message_end`). -/
def orT (x y : Option String) : Option String := if truthy x then x else y

/-- One `message` id-capture step as `processStream` performs it. -/
def idStep (f : EventData → Option String) (c : Option String) :
    StreamLine → Option String
  | StreamLine.skipped => c
  | StreamLine.parsed ev =>
    if ev.event.getD "" = "message" then (if truthy c then c else f ev) else c

/-- The id accumulator after a list of lines. -/
def accId (f : EventData → Option String) (c : Option String)
    (lines : List StreamLine) : Option String :=
  lines.foldl (idStep f) c

/-! ### Concrete instances used by counterexamples and witnesses -/

/-- A manager holding exactly one recorded turn (turn 1) for group `"g"`. -/
def m1g : ConversationManager :=
  add_turn newManager "g" 1 "你好" "您好" "成功" "" (1 : ℚ) "t1"

/-- The three `message` chunks of the spec's streaming example, the first one
carrying the ids. -/
def demoPre : List StreamLine :=
  [StreamLine.parsed ⟨some "message", some "Hel", some "conv-1", some "mid-1", none, none⟩,
   StreamLine.parsed ⟨some "message", some "lo ", none, none, none, none⟩,
   StreamLine.parsed ⟨some "message", some "world", none, none, none, none⟩]

/-- The closing `message_end` event of the streaming example. -/
def demoEnd : EventData := ⟨some "message_end", none, some "conv-9", none, some "mid-9", none⟩

/-- An API oracle whose every attempt raises a connection error. -/
def failOracle : ApiOracle := fun _ => Except.error "连接失败"

/-- Two test cases for the same conversation group. -/
def demoCase1 : TestCase := ⟨"g1", 1, "你好", ""⟩

/-- Second demo case. -/
def demoCase2 : TestCase := ⟨"g1", 2, "再见", ""⟩

/-- A two-case batch in which every API attempt fails. -/
def demoItems : List (TestCase × ApiOracle) :=
  [(demoCase1, failOracle), (demoCase2, failOracle)]

/-- Stats as initialised for a two-case run. -/
def st0 : ToolStats := ⟨2, 0, 0, 0⟩

/-- An execution state whose status is `running`. -/
def runningState : ExecutionState :=
  { initialExecutionState with status := RunStatus.running }

/-- An execution state whose status is `paused`. -/
def pausedState : ExecutionState :=
  { initialExecutionState with status := RunStatus.paused }

/-- One active stored configuration. -/
def demoConfigs : List ConfigRecord := [⟨"默认配置", true⟩]

/-- A manager that already stores a non-empty external id for `"g1"`. -/
def cmWithId : ConversationManager :=
  set_conversation_id newManager "g1" "conv-abc" "t0"

/-- A manager with two recorded turns, one successful and one failed. -/
def demoStatsManager : ConversationManager :=
  add_turn
    (add_turn (set_conversation_id newManager "g1" "c1" "t0")
      "g1" 1 "q1" "a1" "成功" "" (0 : ℚ) "t1")
    "g1" 2 "q2" "" "failed" "超时" (0 : ℚ) "t2"

/-! ## Helper lemmas -/

theorem lookupKey_setKey {β : Type} (l : List (String × β)) (k g : String) (v : β) :
    lookupKey (setKey l k v) g = if k = g then some v else lookupKey l g := by
  induction l with
  | nil => simp [setKey, lookupKey]
  | cons kv rest ih =>
    obtain ⟨k', v'⟩ := kv
    by_cases hk : k' = k
    · subst hk
      simp only [setKey, if_pos rfl, lookupKey]
      by_cases hg : k' = g <;> simp [hg]
    · simp only [setKey, if_neg hk, lookupKey]
      by_cases hg : k' = g
      · subst hg
        have : ¬ k = k' := fun h => hk h.symm
        simp [this]
      · simp [hg, ih]

theorem set_conversation_id_mapping (m : ConversationManager) (gid cid now : String) :
    (set_conversation_id m gid cid now).conversation_mapping
      = setKey m.conversation_mapping gid cid := by
  unfold set_conversation_id
  split <;> rfl

theorem countP_add_countP_not {α : Type} (p : α → Bool) (l : List α) :
    l.countP p + l.countP (fun a => !p a) = l.length := by
  induction l with
  | nil => rfl
  | cons a t ih => by_cases h : p a <;> simp [List.countP_cons, h] <;> omega

theorem ratFloor_eq_intFloor (q : ℚ) : Rat.floor q = ⌊q⌋ :=
  (Rat.floor_def' q).trans Rat.floor_def.symm

theorem truthy_none : truthy none = false := rfl

theorem truthy_iff (o : Option String) : truthy o = true ↔ ∃ s, o = some s ∧ s ≠ "" := by
  cases o with
  | none => simp [truthy]
  | some s => simp [truthy]

/-! ## Claims -/

/-- Claim C3 (counterexample): with only turn 1 recorded for group `"g"`,
submitting turn 3 is flagged as out-of-order by `validate_turn_sequence`,
yet `add_turn` appends it anyway: the history grows to 2 records, the last of
which is the turn-3 record.  The claim's "rejected by the engine: the
out-of-order turn is not appended" is therefore false. -/
theorem C3_out_of_order_appended :
    validate_turn_sequence m1g "g" 3 = false
  ∧ get_turn_count (add_turn m1g "g" 3 "第三问" "" "成功" "" (0 : ℚ) "t3") "g" = 2
  ∧ get_last_turn (add_turn m1g "g" 3 "第三问" "" "成功" "" (0 : ℚ) "t3") "g"
      = some ⟨3, "第三问", "", "成功", "", (0 : ℚ), "t3"⟩ := by
  refine ⟨rfl, rfl, rfl⟩

/-- Claim C3 (amended): the engine never rejects an out-of-order turn:
`add_turn` appends unconditionally, growing the group's history by exactly
one record, while the (never invoked) predicate `validate_turn_sequence`
returns `true` exactly when the submitted turn number is the recorded turn
count plus one. -/
theorem C3_add_turn_unconditional (m : ConversationManager) (gid : String)
    (tn : Nat) (q r st er : String) (rt : ℚ) (now : String) :
    get_turn_count (add_turn m gid tn q r st er rt now) gid = get_turn_count m gid + 1
  ∧ ∀ expected : Nat,
      (validate_turn_sequence m gid expected = true ↔ expected = get_turn_count m gid + 1) := by
  constructor
  · simp only [get_turn_count, get_conversation_turns, add_turn, lookupKey_setKey, if_pos rfl]
    cases h : lookupKey m.conversation_turns gid <;> simp [h]
  · intro expected
    simp only [validate_turn_sequence]
    by_cases h : get_turn_count m gid = 0
    · rw [if_pos h, h]
      simp [beq_iff_eq]
    · rw [if_neg h]
      simp [beq_iff_eq]

/-- Witness for `C3_add_turn_unconditional` at a concrete manager: appending
turn 5 to the empty manager grows the count by one, and turn 1 is accepted by
the sequence check there. -/
theorem C3_add_turn_unconditional_app :
    get_turn_count (add_turn newManager "g" 5 "q" "r" "成功" "" (0 : ℚ) "t") "g"
        = get_turn_count newManager "g" + 1
  ∧ validate_turn_sequence newManager "g" 1 = true :=
  ⟨(C3_add_turn_unconditional newManager "g" 5 "q" "r" "成功" "" (0 : ℚ) "t").1,
   ((C3_add_turn_unconditional newManager "g" 5 "q" "r" "成功" "" (0 : ℚ) "t").2 1).mpr rfl⟩

/-- Claim C10: `get_statistics` counts a turn successful exactly when its
`api_status` is the string `"成功"`; successful and failed turns always sum
to the total turn count; and the success rate is
`round(successful / total * 100, 2)` when any turn exists, `0` otherwise. -/
theorem C10_statistics_consistency (m : ConversationManager) :
    (get_statistics m).successful_turns + (get_statistics m).failed_turns
        = (get_statistics m).total_turns
  ∧ (get_statistics m).successful_turns
        = (joinedTurns m).countP (fun t => t.api_status == "成功")
  ∧ (0 < (get_statistics m).total_turns →
      (get_statistics m).success_rate
        = pyRound2 (((get_statistics m).successful_turns : ℚ)
            / ((get_statistics m).total_turns : ℚ) * 100))
  ∧ ((get_statistics m).total_turns = 0 → (get_statistics m).success_rate = 0) := by
  refine ⟨?_, rfl, ?_, ?_⟩
  · show (joinedTurns m).countP _ + (joinedTurns m).countP _
        = ((m.conversation_turns.map Prod.snd).map List.length).sum
    rw [countP_add_countP_not]
    show (joinedTurns m).length = _
    rw [joinedTurns, List.length_flatten]
  · intro h
    have h' : 0 < ((m.conversation_turns.map Prod.snd).map List.length).sum := h
    show pyRound2 (if 0 < ((m.conversation_turns.map Prod.snd).map List.length).sum
          then _ else 0) = _
    rw [if_pos h']
    rfl
  · intro h
    have h' : ((m.conversation_turns.map Prod.snd).map List.length).sum = 0 := h
    show pyRound2 (if 0 < ((m.conversation_turns.map Prod.snd).map List.length).sum
          then _ else 0) = 0
    rw [if_neg (by omega)]
    simp only [pyRound2]
    norm_num [roundHalfEven, ratFloor_eq_intFloor]

/-- Witness for `C10_statistics_consistency` on a manager with one successful
and one failed turn: the success rate computes to 50. -/
theorem C10_statistics_consistency_app :
    (get_statistics demoStatsManager).success_rate
      = pyRound2 (((get_statistics demoStatsManager).successful_turns : ℚ)
          / ((get_statistics demoStatsManager).total_turns : ℚ) * 100) :=
  (C10_statistics_consistency demoStatsManager).2.2.1 (by decide)

/-- Claim C8 (code bug, evaluated at the failing input): in the CLI loop
(`ChatflowTestTool.run`, main.py line 365) the index of
`enumerate(test_cases, 1)` is 1-based, so the condition `i < len - 1` skips
the inter-case delay after the second-to-last case as well: with `N = 2`
cases, no delay is taken after case 1 even though it is not the last case,
and a two-case run performs no inter-case sleep at all.  The web loop
(execution.py line 362, 0-based index) matches the claim. -/
theorem C8_cli_delay_divergence :
    cliSleepAfterCase 1 2 = false
  ∧ webSleepAfterCase 0 2 false = true
  ∧ (run_loop newManager st0 demoItems "t").2.2.2 = [] := by
  refine ⟨rfl, rfl, rfl⟩

/-- Claim C4 (counterexample): the retry wrapper of `process_test_case`
retries even a malformed-response error — a kind the spec calls
non-retryable — for the full 3 attempts, and on final failure the raised
error message is exactly the last error's message: no attempt count is
appended to it. -/
theorem C4_retry_counterexample :
    retryCall (fun _ => (Except.error "API响应JSON解析失败: 格式错误" : Except String Nat)) 5 3
      = { result := Except.error "API响应JSON解析失败: 格式错误",
          attemptsMade := 3, sleeps := [5, 5] } := rfl

/-- Claim C4 (amended): the retry wrapper attempts the call at most 3 times,
retries on any error regardless of kind, sleeps the fixed 5-second delay
between consecutive attempts, and when all 3 attempts fail it re-raises the
third error unmodified. -/
theorem C4_retry_behavior {α : Type} (client : Nat → Except String α) :
    (retryCall client 5 3).attemptsMade ≤ 3
  ∧ (retryCall client 5 3).sleeps
      = List.replicate ((retryCall client 5 3).attemptsMade - 1) 5
  ∧ ∀ e0 e1 e2 : String, client 0 = Except.error e0 → client 1 = Except.error e1 →
      client 2 = Except.error e2 →
      (retryCall client 5 3).result = Except.error e2
    ∧ (retryCall client 5 3).attemptsMade = 3 := by
  rcases h0 : client 0 with e0' | v0
  · rcases h1 : client 1 with e1' | v1
    · rcases h2 : client 2 with e2' | v2
      · refine ⟨?_, ?_, ?_⟩
        · simp [retryCall, retryGo, h0, h1, h2]
        · simp [retryCall, retryGo, h0, h1, h2, List.replicate]
        · intro e0 e1 e2 g0 g1 g2
          injection g2 with he
          subst he
          constructor
          · simp [retryCall, retryGo, h0, h1, h2]
          · simp [retryCall, retryGo, h0, h1, h2]
      · refine ⟨?_, ?_, ?_⟩
        · simp [retryCall, retryGo, h0, h1, h2]
        · simp [retryCall, retryGo, h0, h1, h2, List.replicate]
        · intro e0 e1 e2 g0 g1 g2
          exact Except.noConfusion g2
    · refine ⟨?_, ?_, ?_⟩
      · simp [retryCall, retryGo, h0, h1]
      · simp [retryCall, retryGo, h0, h1, List.replicate]
      · intro e0 e1 e2 g0 g1 g2
        exact Except.noConfusion g1
  · refine ⟨?_, ?_, ?_⟩
    · simp [retryCall, retryGo, h0]
    · simp [retryCall, retryGo, h0, List.replicate]
    · intro e0 e1 e2 g0 g1 g2
      exact Except.noConfusion g0

/-- Witness for `C4_retry_behavior`: an always-failing client is attempted
exactly 3 times and the final error is the unmodified message. -/
theorem C4_retry_behavior_app :
    (retryCall (fun _ => (Except.error "连接失败" : Except String Nat)) 5 3).result
        = Except.error "连接失败"
  ∧ (retryCall (fun _ => (Except.error "连接失败" : Except String Nat)) 5 3).attemptsMade = 3 :=
  (C4_retry_behavior (fun _ => (Except.error "连接失败" : Except String Nat))).2.2
    "连接失败" "连接失败" "连接失败" rfl rfl rfl

/-- Claim C5: `pause_test` succeeds iff the status is `running` and then sets
it to `paused`; `resume_test` succeeds iff the status is `paused` and then
sets it to `running`; `stop_test` succeeds iff the status is `running` or
`paused` and then sets it to `stopped` with the end time recorded; in every
other state each route raises its invalid-state error before touching the
state. -/
theorem C5_state_transitions (s : ExecutionState) (now : String) :
    ((pause_test s).isOk = true ↔ s.status = RunStatus.running)
  ∧ (∀ s', pause_test s = Except.ok s' → s'.status = RunStatus.paused)
  ∧ ((resume_test s).isOk = true ↔ s.status = RunStatus.paused)
  ∧ (∀ s', resume_test s = Except.ok s' → s'.status = RunStatus.running)
  ∧ ((stop_test s now).isOk = true
        ↔ (s.status = RunStatus.running ∨ s.status = RunStatus.paused))
  ∧ (∀ s', stop_test s now = Except.ok s' →
        s'.status = RunStatus.stopped ∧ s'.end_time = some now) := by
  refine ⟨?_, ?_, ?_, ?_, ?_, ?_⟩
  · cases hs : s.status <;>
      simp [pause_test, hs, Except.isOk, Except.toBool]
  · intro s' h
    cases hs : s.status <;> simp [pause_test, hs] at h
    all_goals simp [← h, add_log]
  · cases hs : s.status <;>
      simp [resume_test, hs, Except.isOk, Except.toBool]
  · intro s' h
    cases hs : s.status <;> simp [resume_test, hs] at h
    all_goals simp [← h, add_log]
  · cases hs : s.status <;>
      simp [stop_test, hs, Except.isOk, Except.toBool]
  · intro s' h
    cases hs : s.status <;> simp [stop_test, hs] at h <;> simp [← h, add_log]

/-- Witness for `C5_state_transitions`: pausing a running state succeeds and
resuming a paused state succeeds. -/
theorem C5_state_transitions_app :
    (pause_test runningState).isOk = true ∧ (resume_test pausedState).isOk = true :=
  ⟨((C5_state_transitions runningState "t5").1).mpr rfl,
   ((C5_state_transitions pausedState "t5").2.2.1).mpr rfl⟩

/-- Claim C9: `start_test` answers the conflict error exactly when the status
is `running`; issued from `paused` (with test cases and an active
configuration available) it is accepted: the progress counters are reset, the
log buffer is cleared down to the two fresh startup entries, a new task id is
assigned and the status becomes `running` — the paused run's state is
overwritten without any error. -/
theorem C9_start_from_paused (s : ExecutionState) (tcs : List TestCase)
    (configs : List ConfigRecord) (tid now : String) :
    (start_test s tcs configs tid now = Except.error "测试已在运行中"
        ↔ s.status = RunStatus.running)
  ∧ (s.status = RunStatus.paused → tcs ≠ [] →
      ∀ cfg, configs.find? (fun c => c.is_active) = some cfg →
      ∃ s', start_test s tcs configs tid now = Except.ok s'
        ∧ s'.status = RunStatus.running ∧ s'.task_id = some tid
        ∧ s'.total = tcs.length ∧ s'.completed = 0 ∧ s'.success = 0
        ∧ s'.failed = 0 ∧ s'.logs.length = 2) := by
  constructor
  · by_cases h : s.status = RunStatus.running
    · simp [start_test, h]
    · simp only [start_test, if_neg h]
      constructor
      · intro he
        exfalso
        by_cases ht : tcs.isEmpty
        · rw [if_pos ht] at he
          exact absurd (Except.error.inj he) (by decide)
        · rw [if_neg ht] at he
          rcases hf : configs.find? (fun c => c.is_active) with _ | cfg
          · rw [hf] at he
            exact absurd (Except.error.inj he) (by decide)
          · rw [hf] at he
            exact Except.noConfusion he
      · intro hs
        exact absurd hs h
  · intro hp hne cfg hf
    have hnr : ¬ s.status = RunStatus.running := by simp [hp]
    have ht : tcs.isEmpty = false := by
      cases tcs with
      | nil => exact absurd rfl hne
      | cons a t => rfl
    simp only [start_test, if_neg hnr, ht, Bool.false_eq_true, if_false, hf]
    exact ⟨_, rfl, rfl, rfl, rfl, rfl, rfl, rfl, rfl⟩

/-- Witness for `C9_start_from_paused`: starting from a paused state with one
available case and one active configuration succeeds with fully reset
counters. -/
theorem C9_start_from_paused_app :
    ∃ s', start_test pausedState [demoCase1] demoConfigs "tid-2" "t9" = Except.ok s'
      ∧ s'.status = RunStatus.running ∧ s'.task_id = some "tid-2"
      ∧ s'.total = [demoCase1].length ∧ s'.completed = 0 ∧ s'.success = 0
      ∧ s'.failed = 0 ∧ s'.logs.length = 2 :=
  (C9_start_from_paused pausedState [demoCase1] demoConfigs "tid-2" "t9").2 rfl
    (by decide) ⟨"默认配置", true⟩ rfl

theorem processStream_run (endEv : EventData) (post : List StreamLine)
    (hend : endEv.event.getD "" = "message_end") :
    ∀ (pre : List StreamLine) (acc : String) (cid mid : Option String),
    (∀ l ∈ pre, lineHalts l = false) →
    processStream (pre ++ StreamLine.parsed endEv :: post) acc cid mid
      = Except.ok (acc ++ msgConcat pre,
          orT (accId EventData.conversation_id cid pre) endEv.conversation_id,
          orT (accId EventData.message_id mid pre) endEv.id) := by
  intro pre
  induction pre with
  | nil =>
    intro acc cid mid _
    simp [processStream, hend, msgConcat, accId, orT]
  | cons l rest ih =>
    intro acc cid mid hpre
    have hl : lineHalts l = false := hpre l (List.mem_cons_self l rest)
    have hrest : ∀ x ∈ rest, lineHalts x = false :=
      fun x hx => hpre x (List.mem_cons_of_mem l hx)
    cases l with
    | skipped =>
      simp only [List.cons_append, processStream, List.append_eq]
      rw [ih acc cid mid hrest]
      simp [msgConcat, accId, idStep]
    | parsed ev =>
      have hne : ¬ ev.event.getD "" = "message_end" := by
        simp [lineHalts] at hl
        exact hl.1
      have her : ¬ ev.event.getD "" = "error" := by
        simp [lineHalts] at hl
        exact hl.2
      by_cases hm : ev.event.getD "" = "message"
      · simp only [List.cons_append, processStream, List.append_eq]
        rw [if_pos hm,
          ih (acc ++ ev.answer.getD "") (if truthy cid then cid else ev.conversation_id)
            (if truthy mid then mid else ev.message_id) hrest]
        simp only [msgConcat, accId, List.foldl_cons, idStep, hm, if_pos,
          String.append_assoc, if_true]
      · simp only [List.cons_append, processStream, List.append_eq]
        rw [if_neg hm, if_neg hne, if_neg her, ih acc cid mid hrest]
        simp [msgConcat, accId, idStep, hm]

theorem accId_of_truthy (f : EventData → Option String) (c : Option String)
    (h : truthy c = true) : ∀ lines : List StreamLine, accId f c lines = c := by
  intro lines
  induction lines with
  | nil => rfl
  | cons l rest ih =>
    have hstep : idStep f c l = c := by
      cases l with
      | skipped => rfl
      | parsed ev => simp [idStep, h]
    show accId f (idStep f c l) rest = c
    rw [hstep, ih]

theorem orT_accId (f : EventData → Option String) (y : Option String) :
    ∀ (lines : List StreamLine) (c : Option String), truthy c = false →
    orT (accId f c lines) y = orT (firstProvidedId (providedIds f lines)) y := by
  intro lines
  induction lines with
  | nil =>
    intro c hc
    simp [accId, providedIds, firstProvidedId, orT, hc, truthy_none]
  | cons l rest ih =>
    intro c hc
    cases l with
    | skipped =>
      show orT (accId f (idStep f c _) rest) y = _
      simp only [idStep]
      rw [ih c hc]
      rfl
    | parsed ev =>
      by_cases hm : ev.event.getD "" = "message"
      · show orT (accId f (idStep f c _) rest) y = _
        simp only [idStep, hm, if_pos, hc, Bool.false_eq_true, if_false, if_true]
        by_cases hf : truthy (f ev) = true
        · rw [accId_of_truthy f (f ev) hf rest]
          show orT (f ev) y = orT (firstProvidedId (providedIds f (StreamLine.parsed ev :: rest))) y
          simp [providedIds, hm, firstProvidedId, hf]
        · have hf' : truthy (f ev) = false := by
            cases hfe : truthy (f ev)
            · rfl
            · exact absurd hfe hf
          rw [ih (f ev) hf']
          simp [providedIds, hm, firstProvidedId, hf']
      · show orT (accId f (idStep f c _) rest) y = _
        simp only [idStep, hm, Bool.false_eq_true, if_false]
        rw [ih c hc]
        simp [providedIds, hm]

/-- Claim C2: for any stream whose lines up to the first `message_end` are
`message` events, skipped lines or other non-halting events (no `error`
event), `_handle_streaming_response` returns exactly: the concatenation, in
stream order, of the `answer` fields of the `message` lines before the
`message_end`; the conversation id and message id captured from the first
line providing a truthy value, with the `message_end` event's
`conversation_id`/`id` filling any still-missing id; and everything after the
`message_end` is never read. -/
theorem C2_streaming_aggregation (pre post : List StreamLine) (endEv : EventData)
    (hend : endEv.event.getD "" = "message_end")
    (hpre : ∀ l ∈ pre, lineHalts l = false) :
    handle_streaming_response (pre ++ StreamLine.parsed endEv :: post)
      = Except.ok
          { answer := msgConcat pre,
            conversation_id :=
              orT (firstProvidedId (providedIds EventData.conversation_id pre))
                endEv.conversation_id,
            message_id :=
              orT (firstProvidedId (providedIds EventData.message_id pre)) endEv.id } := by
  unfold handle_streaming_response
  rw [processStream_run endEv post hend pre "" none none hpre,
    orT_accId EventData.conversation_id endEv.conversation_id pre none rfl,
    orT_accId EventData.message_id endEv.id pre none rfl]
  simp [Except.map]

/-- Witness for `C2_streaming_aggregation`: the spec's example — chunks
`"Hel"`, `"lo "`, `"world"` then `message_end` — aggregates to
`"Hello world"`, with the ids taken from the first chunk that provided
them. -/
theorem C2_streaming_aggregation_app :
    handle_streaming_response (demoPre ++ StreamLine.parsed demoEnd :: [])
      = Except.ok { answer := "Hello world", conversation_id := some "conv-1",
                    message_id := some "mid-1" } :=
  (C2_streaming_aggregation demoPre [] demoEnd rfl (by decide)).trans (by rfl)

theorem process_test_case_mapping (cm : ConversationManager) (client : ApiOracle)
    (tc : TestCase) (st : ToolStats) (now : String) :
    (process_test_case cm client tc st now).2.1.conversation_mapping
        = cm.conversation_mapping
  ∨ ∃ nid : String, nid ≠ ""
      ∧ (process_test_case cm client tc st now).2.1.conversation_mapping
          = setKey cm.conversation_mapping tc.conversation_group_id nid := by
  simp only [process_test_case]
  cases hr : (retryCall client 5 3).result with
  | error e => left; rfl
  | ok pr =>
    obtain ⟨resp, rt⟩ := pr
    by_cases hrt : respTruthy resp = true
    · simp only [hrt, if_true]
      by_cases hn : truthy (extract_conversation_id resp) = true
      · right
        rcases (truthy_iff _).mp hn with ⟨s, hs, hne⟩
        refine ⟨(extract_conversation_id resp).getD "", ?_, ?_⟩
        · rw [hs]
          exact hne
        · simp only [hn, if_true]
          exact set_conversation_id_mapping cm tc.conversation_group_id _ now
      · left
        simp [hn]
    · left
      simp [hrt]

theorem lookup_nonempty_preserved (l : List (String × String)) (k g v nid : String)
    (h : lookupKey l g = some v) (hv : v ≠ "") (hn : nid ≠ "") :
    ∃ w, lookupKey (setKey l k nid) g = some w ∧ w ≠ "" := by
  rw [lookupKey_setKey]
  by_cases hk : k = g
  · exact ⟨nid, by rw [if_pos hk], hn⟩
  · exact ⟨v, by rw [if_neg hk]; exact h, hv⟩

theorem process_test_case_keeps_id (cm : ConversationManager) (client : ApiOracle)
    (tc : TestCase) (st : ToolStats) (now gid v : String)
    (h : lookupKey cm.conversation_mapping gid = some v) (hv : v ≠ "") :
    ∃ w, lookupKey (process_test_case cm client tc st now).2.1.conversation_mapping gid
          = some w ∧ w ≠ "" := by
  rcases process_test_case_mapping cm client tc st now with heq | ⟨nid, hn, heq⟩
  · exact ⟨v, heq ▸ h, hv⟩
  · rw [heq]
    exact lookup_nonempty_preserved _ _ _ _ _ h hv hn

theorem runGo_keeps_id : ∀ (items : List (TestCase × ApiOracle))
    (cm : ConversationManager) (st : ToolStats) (i n : Nat) (now gid v : String),
    lookupKey cm.conversation_mapping gid = some v → v ≠ "" →
    ∃ w, lookupKey (runGo cm st items i n now).2.1.conversation_mapping gid
        = some w ∧ w ≠ "" := by
  intro items
  induction items with
  | nil => exact fun cm st i n now gid v h hv => ⟨v, h, hv⟩
  | cons it rest ih =>
    intro cm st i n now gid v h hv
    obtain ⟨tc, client⟩ := it
    obtain ⟨w, hw, hwne⟩ := process_test_case_keeps_id cm client tc st now gid v h hv
    simpa only [runGo] using
      ih (process_test_case cm client tc st now).2.1
        (process_test_case cm client tc st now).2.2 (i + 1) n now gid w hw hwne

theorem runGo_length : ∀ (items : List (TestCase × ApiOracle))
    (cm : ConversationManager) (st : ToolStats) (i n : Nat) (now : String),
    (runGo cm st items i n now).1.length = items.length := by
  intro items
  induction items with
  | nil => intros; rfl
  | cons it rest ih =>
    intro cm st i n now
    obtain ⟨tc, client⟩ := it
    simp [runGo, ih]

theorem runGo_get : ∀ (items : List (TestCase × ApiOracle)) (j : Nat) (tc : TestCase)
    (client : ApiOracle) (cm : ConversationManager) (st : ToolStats) (i n : Nat)
    (now : String), items[j]? = some (tc, client) →
    ∃ cm' st', (runGo cm st items i n now).1[j]?
        = some (process_test_case cm' client tc st' now).1 := by
  intro items
  induction items with
  | nil =>
    intro j tc client cm st i n now h
    simp at h
  | cons it rest ih =>
    intro j tc client cm st i n now h
    obtain ⟨tc0, client0⟩ := it
    cases j with
    | zero =>
      simp only [List.getElem?_cons_zero, Option.some.injEq, Prod.mk.injEq] at h
      obtain ⟨h1, h2⟩ := h
      subst h1
      subst h2
      exact ⟨cm, st, by simp [runGo]⟩
    | succ j' =>
      simp only [List.getElem?_cons_succ] at h
      obtain ⟨cm', st', hw⟩ :=
        ih j' tc client (process_test_case cm client0 tc0 st now).2.1
          (process_test_case cm client0 tc0 st now).2.2 (i + 1) n now h
      refine ⟨cm', st', ?_⟩
      simpa [runGo] using hw

theorem retryCall_result_allfail {α : Type} (client : Nat → Except String α)
    (e0 e1 e2 : String) (h0 : client 0 = Except.error e0)
    (h1 : client 1 = Except.error e1) (h2 : client 2 = Except.error e2) :
    (retryCall client 5 3).result = Except.error e2 := by
  simp [retryCall, retryGo, h0, h1, h2]

theorem process_test_case_allfail (cm : ConversationManager) (client : ApiOracle)
    (tc : TestCase) (st : ToolStats) (now : String) (e0 e1 e2 : String)
    (h0 : client 0 = Except.error e0) (h1 : client 1 = Except.error e1)
    (h2 : client 2 = Except.error e2) :
    (process_test_case cm client tc st now).1.api_status = "failed"
  ∧ (process_test_case cm client tc st now).1.error_details = e2
  ∧ (process_test_case cm client tc st now).1.chatflow_reply = ""
  ∧ (process_test_case cm client tc st now).2.2.failed_cases = st.failed_cases + 1
  ∧ (process_test_case cm client tc st now).2.2.processed_cases
        = st.processed_cases + 1 := by
  have hr := retryCall_result_allfail client e0 e1 e2 h0 h1 h2
  simp [process_test_case, hr]

/-- Claim C6: during a run the engine assigns a conversation group's external
session id at most once per processed case — the mapping either stays
untouched or receives one non-empty id for that case's group (`main.py`
guards `set_conversation_id` behind `if new_conversation_id:`) — and across
any sequence of processed cases an already-stored non-empty id is never
overwritten by an empty string nor removed: the lookup still yields some
non-empty id afterwards. -/
theorem C6_session_id_preserved (cm : ConversationManager) (st : ToolStats)
    (items : List (TestCase × ApiOracle)) (i n : Nat) (now : String)
    (client : ApiOracle) (tc : TestCase) (gid v : String)
    (h : lookupKey cm.conversation_mapping gid = some v) (hv : v ≠ "") :
    ((process_test_case cm client tc st now).2.1.conversation_mapping
        = cm.conversation_mapping
      ∨ ∃ nid, nid ≠ ""
        ∧ (process_test_case cm client tc st now).2.1.conversation_mapping
            = setKey cm.conversation_mapping tc.conversation_group_id nid)
  ∧ ∃ w, lookupKey (runGo cm st items i n now).2.1.conversation_mapping gid
        = some w ∧ w ≠ "" :=
  ⟨process_test_case_mapping cm client tc st now,
   runGo_keeps_id items cm st i n now gid v h hv⟩

/-- Witness for `C6_session_id_preserved`: after a two-case batch whose
API calls all fail, the previously stored id `"conv-abc"` of group `"g1"` is
still present and non-empty. -/
theorem C6_session_id_preserved_app :
    ∃ w, lookupKey (runGo cmWithId st0 demoItems 1 2 "t6").2.1.conversation_mapping "g1"
        = some w ∧ w ≠ "" :=
  (C6_session_id_preserved cmWithId st0 demoItems 1 2 "t6" failOracle demoCase1
    "g1" "conv-abc" rfl (by decide)).2

/-- Claim C7: when the API client fails on all 3 attempts for one case, the
run loop still produces exactly one result per submitted case (the result
list has the same length as the input list), and the failing case's result
has status `failed`, the last attempt's error message in `error_details`,
and an empty reply — the loop continues to the remaining cases instead of
aborting. -/
theorem C7_retry_exhaustion_continues (cm : ConversationManager) (st : ToolStats)
    (items : List (TestCase × ApiOracle)) (i n : Nat) (now : String) (j : Nat)
    (tc : TestCase) (client : ApiOracle) (e0 e1 e2 : String)
    (hj : items[j]? = some (tc, client))
    (h0 : client 0 = Except.error e0) (h1 : client 1 = Except.error e1)
    (h2 : client 2 = Except.error e2) :
    (runGo cm st items i n now).1.length = items.length
  ∧ ∃ r, (runGo cm st items i n now).1[j]? = some r
      ∧ r.api_status = "failed" ∧ r.error_details = e2 ∧ r.chatflow_reply = "" := by
  refine ⟨runGo_length items cm st i n now, ?_⟩
  obtain ⟨cm', st', hw⟩ := runGo_get items j tc client cm st i n now hj
  exact ⟨_, hw,
    (process_test_case_allfail cm' client tc st' now e0 e1 e2 h0 h1 h2).1,
    (process_test_case_allfail cm' client tc st' now e0 e1 e2 h0 h1 h2).2.1,
    (process_test_case_allfail cm' client tc st' now e0 e1 e2 h0 h1 h2).2.2.1⟩

/-- Witness for `C7_retry_exhaustion_continues`: in the two-case batch with
an always-failing client, both cases yield results and case 0's result is
`failed` with the connection-error message. -/
theorem C7_retry_exhaustion_continues_app :
    (runGo newManager st0 demoItems 1 2 "t7").1.length = demoItems.length
  ∧ ∃ r, (runGo newManager st0 demoItems 1 2 "t7").1[0]? = some r
      ∧ r.api_status = "failed" ∧ r.error_details = "连接失败"
      ∧ r.chatflow_reply = "" :=
  C7_retry_exhaustion_continues newManager st0 demoItems 1 2 "t7" 0 demoCase1
    failOracle "连接失败" "连接失败" "连接失败" rfl rfl rfl rfl

theorem reach_success_failed_completed {b : Bool} {s : RunSnap}
    (h : ReachSnap b s) : s.success + s.failed = s.completed := by
  induction h with
  | init => rfl
  | step hr ho ih =>
    cases ho with
    | start n hn hne hsafe => rfl
    | caseSuccess l₁ l₂ r ht hs =>
      simp only []
      omega
    | caseFailed l₁ l₂ r ht =>
      simp only []
      omega
    | pauseStep h => exact ih
    | resumeStep h => exact ih
    | stopStep h => exact ih
    | finishStep h => exact ih
    | errorStep => exact ih

theorem reach_completed_add_tasks {s : RunSnap} (h : ReachSnap true s) :
    s.completed + s.tasks.sum = s.total := by
  induction h with
  | init => rfl
  | step hr ho ih =>
    cases ho with
    | start n hn hne hsafe =>
      have hz := hsafe rfl
      simp only [List.sum_cons, List.sum_eq_zero hz]
      omega
    | caseSuccess l₁ l₂ r ht hs =>
      rw [ht] at ih
      simp only [List.sum_append, List.sum_cons] at ih ⊢
      omega
    | caseFailed l₁ l₂ r ht =>
      rw [ht] at ih
      simp only [List.sum_append, List.sum_cons] at ih ⊢
      omega
    | pauseStep h => exact ih
    | resumeStep h => exact ih
    | stopStep h => exact ih
    | finishStep h => exact ih
    | errorStep => exact ih

/-- Claim C1 (counterexample): the claim's `completed ≤ total` fails on a
real interleaving.  Trace: `start` a 1-case run (task A); `pause` while A has
not yet processed its case; `start` a second 1-case run — accepted because
the status is `paused` (execution.py line 69 only rejects `running`), the
counters reset to `total = 1`, but task A is never cancelled; A wakes from
its pause-poll loop, sees `running`, and processes its case; the new task B
processes its own.  Both per-case segments increment `completed`, so a status
snapshot then shows `completed = 2 > 1 = total`. -/
theorem C1_completed_exceeds_total :
    ReachSnap false { status := RunStatus.running, total := 1, completed := 2,
                      success := 2, failed := 0, tasks := [0, 0] }
  ∧ (1 : Nat) < 2 := by
  constructor
  · have h1 : ReachSnap false
        { status := RunStatus.running, total := 1, completed := 0,
          success := 0, failed := 0, tasks := [1] } :=
      (ReachSnap.init false).step (ObsStep.start 1 (by decide) (by decide) (by simp))
    have h2 : ReachSnap false
        { status := RunStatus.paused, total := 1, completed := 0,
          success := 0, failed := 0, tasks := [1] } :=
      h1.step (ObsStep.pauseStep rfl)
    have h3 : ReachSnap false
        { status := RunStatus.running, total := 1, completed := 0,
          success := 0, failed := 0, tasks := [1, 1] } :=
      h2.step (ObsStep.start 1 (by decide) (by decide) (by simp))
    have h4 : ReachSnap false
        { status := RunStatus.running, total := 1, completed := 1,
          success := 1, failed := 0, tasks := [0, 1] } :=
      h3.step (ObsStep.caseSuccess [] [1] 0 rfl (by decide))
    exact h4.step (ObsStep.caseSuccess [0] [] 0 rfl (by decide))
  · decide

/-- Claim C1 (amended): at every observable snapshot of every interleaving,
`success + failed = completed` — the `success`/`failed` increment and the
`completed` increment of one case sit in a single await-free segment
(execution.py lines 320-359), so no reader sees them apart; and
`completed ≤ total` additionally holds for every interleaving in which
`start` is only accepted when no previously spawned task still has cases
left (in particular for all single-run executions).  Without that
restriction a `start` issued while `paused` leaves the old task alive and
`completed` can exceed `total` (see the counterexample). -/
theorem C1_progress_invariants :
    (∀ (b : Bool) (s : RunSnap), ReachSnap b s → s.success + s.failed = s.completed)
  ∧ (∀ s : RunSnap, ReachSnap true s → s.completed ≤ s.total) :=
  ⟨fun _ _ h => reach_success_failed_completed h,
   fun s h => by
    have hinv := reach_completed_add_tasks h
    omega⟩

/-- Witness for `C1_progress_invariants`: the invariants evaluated at the
initial state and at a freshly started single run. -/
theorem C1_progress_invariants_app :
    initSnap.success + initSnap.failed = initSnap.completed
  ∧ ({ status := RunStatus.running, total := 1, completed := 0, success := 0,
       failed := 0, tasks := [1] } : RunSnap).completed
      ≤ ({ status := RunStatus.running, total := 1, completed := 0, success := 0,
           failed := 0, tasks := [1] } : RunSnap).total :=
  ⟨C1_progress_invariants.1 false initSnap (ReachSnap.init false),
   C1_progress_invariants.2 _
     ((ReachSnap.init true).step (ObsStep.start 1 (by decide) (by decide)
       (by intro _ r hr; exact absurd hr (List.not_mem_nil r))))⟩

end DifyBatch
